import Mathlib

/-!
Verification development for the Reliability Orchestration Core of the
OBS_MCP_bot repository.  The definitions below are a shallow embedding of
the Python sources under `src/`:

* `src/models/downtime_event.py`, `src/models/stream_session.py`,
  `src/models/owner_session.py`, `src/models/health_metric.py`,
  `src/models/content_library.py` (data model),
* `src/services/failover_manager.py` (failure escalator),
* `src/services/owner_detector.py` (operator-takeover detector),
* `src/services/stream_manager.py` (session coordinator),
* `src/services/health_monitor.py` (health sampler),
* `src/services/content_scheduler.py` together with
  `src/persistence/repositories/content_library.py` (content sequencer).

Timestamps (`datetime` in UTC) are modelled as rationals (seconds); calls
on the external OBS control surface are modelled by passing their outcome
(success / `OBSConnectionError`, plus returned data) as explicit inputs,
and the side effects issued towards OBS are collected in action lists.
The persisted store of each repository is modelled as a list of records;
`create` appends, `update` replaces the record with the same identity.
-/

namespace OBSBot

/-- Python `int()` applied to a real-valued number of seconds: truncation
towards zero (used for `int(elapsed)` in `stream_manager.py`). -/
def pyInt (q : ℚ) : ℤ := if 0 ≤ q then ⌊q⌋ else ⌈q⌉

/-! ### Data model: DowntimeEvent (src/models/downtime_event.py) -/

/-- FailureCause enum from src/models/downtime_event.py. -/
inductive FailureCause
  | connectionLost
  | obsCrash
  | contentFailure
  | networkDegraded
  | manualStop
deriving DecidableEq, Repr

/-- DowntimeEvent record (src/models/downtime_event.py).  UUIDs are
modelled as naturals. -/
structure DowntimeEvent where
  eventId : Nat
  streamSessionId : Nat
  start_time : ℚ
  end_time : Option ℚ
  duration_sec : ℚ
  failure_cause : FailureCause
  recovery_action : String
  automatic_recovery : Bool
deriving DecidableEq, Repr

/-- The `validate_end_time` field validator: `end_time` must be strictly
after `start_time` when set. -/
def validateEndTime (start : ℚ) : Option ℚ → Bool
  | none => true
  | some e => decide (start < e)

/-- Pydantic-validated construction of a DowntimeEvent: the field
validator on `end_time` plus the field constraints `duration_sec ≥ 0`
and `1 ≤ recovery_action.length ≤ 500`; a validation error is `none`. -/
def DowntimeEvent.validated (eid sid : Nat) (startT : ℚ) (endT : Option ℚ)
    (dur : ℚ) (cause : FailureCause) (act : String) (auto : Bool) :
    Option DowntimeEvent :=
  if validateEndTime startT endT ∧ 0 ≤ dur ∧ 1 ≤ act.length ∧ act.length ≤ 500 then
    some { eventId := eid, streamSessionId := sid, start_time := startT,
           end_time := endT, duration_sec := dur, failure_cause := cause,
           recovery_action := act, automatic_recovery := auto }
  else none

/-- The `DowntimeEvent.is_ongoing` property. -/
def DowntimeEvent.is_ongoing (e : DowntimeEvent) : Bool := e.end_time.isNone

/-- The `DowntimeEvent.compute_duration`: duration in seconds if `end_time`
is set, else `0.0`. -/
def DowntimeEvent.compute_duration (e : DowntimeEvent) : ℚ :=
  match e.end_time with
  | some t => t - e.start_time
  | none => 0

/-! ### Data model: StreamSession (src/models/stream_session.py) -/

/-- StreamSession record (the spec's BroadcastSession). -/
structure StreamSession where
  sessionId : Nat
  start_time : ℚ
  end_time : Option ℚ
  total_duration_sec : ℤ
  downtime_duration_sec : ℤ
  avg_bitrate_kbps : ℚ
  avg_dropped_frames_pct : ℚ
  peak_cpu_usage_pct : ℚ
deriving DecidableEq, Repr

/-- The StreamSession literal built in `StreamManager.auto_start_streaming`
(and `start_streaming`): all counters zero, `end_time = None`. -/
def newStreamSession (sid : Nat) (now : ℚ) : StreamSession :=
  { sessionId := sid, start_time := now, end_time := none,
    total_duration_sec := 0, downtime_duration_sec := 0,
    avg_bitrate_kbps := 0, avg_dropped_frames_pct := 0,
    peak_cpu_usage_pct := 0 }

/-! ### Failure escalator (src/services/failover_manager.py) -/

/-- Side effects issued towards the OBS control surface. -/
inductive ObsAction
  | switchScene (name : String)
  | connectObs
  | startStream
deriving DecidableEq, Repr

/-- Mutable state of FailoverManager (src/services/failover_manager.py,
`__init__`), together with the persisted events store of its
EventsRepository (`create` appends, `update` replaces by `event_id`). -/
structure FailoverState where
  current_session : Option StreamSession
  current_downtime_event : Option DowntimeEvent
  in_failover_mode : Bool
  obs_restart_attempts : Nat
  events_store : List DowntimeEvent
deriving DecidableEq, Repr

/-- The `EventsRepository.update`: point update by `event_id`. -/
def repoUpdate (store : List DowntimeEvent) (e : DowntimeEvent) :
    List DowntimeEvent :=
  store.map fun x => if x.eventId = e.eventId then e else x

/-- The `FailoverManager._record_downtime_event` (lines 367-405): no-op when
there is no current session; otherwise creates an ongoing event
(`end_time = None`, `duration_sec = 0`, automatic recovery), persists it
(`events_repo.create`) and takes it as the current downtime event.
`now` is `datetime.now(timezone.utc)` and `eid` the fresh `uuid4()`. -/
def recordDowntimeEvent (s : FailoverState) (cause : FailureCause)
    (initialAct : String) (now : ℚ) (eid : Nat) : FailoverState :=
  match s.current_session with
  | none => s
  | some sess =>
    let e : DowntimeEvent :=
      { eventId := eid, streamSessionId := sess.sessionId,
        start_time := now, end_time := none, duration_sec := 0,
        failure_cause := cause, recovery_action := initialAct,
        automatic_recovery := true }
    { s with events_store := s.events_store ++ [e],
             current_downtime_event := some e }

/-- The `FailoverManager._finalize_downtime_event` applied to one event:
sets `end_time := now`, recomputes `duration_sec` via
`compute_duration`, and appends the final action to `recovery_action`. -/
def finalizeDowntimeEvent (e : DowntimeEvent) (now : ℚ)
    (finalAct : String) : DowntimeEvent :=
  let e1 : DowntimeEvent := { e with end_time := some now }
  { e1 with duration_sec := e1.compute_duration,
            recovery_action := e.recovery_action ++ " -> " ++ finalAct }

/-- The `FailoverManager._finalize_downtime_event` (lines 407-435) on the
manager state: no-op without a current event; otherwise finalizes it,
persists the update and clears the current-downtime handle. -/
def finalizeCurrentDowntime (s : FailoverState) (now : ℚ)
    (finalAct : String) : FailoverState :=
  match s.current_downtime_event with
  | none => s
  | some e =>
    let e' := finalizeDowntimeEvent e now finalAct
    { s with events_store := repoUpdate s.events_store e',
             current_downtime_event := none }

/-- The `FailoverManager._activate_technical_difficulties` (lines 334-365):
always requests the scene switch; on success (`tdOk`) updates the
current downtime event's recovery action in the store, on
`OBSConnectionError` only logs. -/
def activateTechnicalDifficulties (s : FailoverState) (reason : String)
    (tdOk : Bool) : FailoverState × List ObsAction :=
  if tdOk then
    match s.current_downtime_event with
    | some e =>
      let e' : DowntimeEvent :=
        { e with recovery_action :=
            "Technical Difficulties scene activated: " ++ reason }
      ({ s with current_downtime_event := some e',
                events_store := repoUpdate s.events_store e' },
       [ObsAction.switchScene "Technical Difficulties"])
    | none => (s, [ObsAction.switchScene "Technical Difficulties"])
  else (s, [ObsAction.switchScene "Technical Difficulties"])

/-- Outcomes of the two scene switches `_activate_failover` may issue. -/
structure ObsOutcomes where
  switchFailoverOk : Bool
  switchTechDiffOk : Bool
deriving DecidableEq, Repr

/-- The `FailoverManager._activate_failover` (lines 295-332): no-op when
already in failover mode; otherwise requests the switch to the
"Failover" scene.  On success it sets failover mode and updates the
current event's recovery action; on `OBSConnectionError` it falls back
to `_activate_technical_difficulties`. -/
def activateFailover (s : FailoverState) (recoveryAct : String)
    (o : ObsOutcomes) : FailoverState × List ObsAction :=
  if s.in_failover_mode then (s, [])
  else if o.switchFailoverOk then
    let s1 : FailoverState := { s with in_failover_mode := true }
    match s1.current_downtime_event with
    | some e =>
      let e' : DowntimeEvent := { e with recovery_action := recoveryAct }
      ({ s1 with current_downtime_event := some e',
                 events_store := repoUpdate s1.events_store e' },
       [ObsAction.switchScene "Failover"])
    | none => (s1, [ObsAction.switchScene "Failover"])
  else
    let r := activateTechnicalDifficulties s
      "Failover scene switch failed" o.switchTechDiffOk
    (r.1, ObsAction.switchScene "Failover" :: r.2)

/-- The `FailoverManager.handle_content_failure` (lines 96-117): records a
content-failure downtime event, then activates the failover scene. -/
def handleContentFailure (s : FailoverState) (errorMessage : String)
    (now : ℚ) (eid : Nat) (o : ObsOutcomes) :
    FailoverState × List ObsAction :=
  let s1 := recordDowntimeEvent s FailureCause.contentFailure
    ("Content playback failed: " ++ errorMessage) now eid
  activateFailover s1 "Switched to failover scene" o

/-- Inputs of one `_handle_obs_crash` watchdog tick: outcome of the
`obs.connect()` attempt, of the post-reconnect `get_streaming_status`
call, whether the status reported the stream active, the outcome of a
possible `start_streaming` call, the outcome of the Technical
Difficulties scene switch, and the wall-clock time / fresh event id of
the tick. -/
structure CrashTickEnv where
  connectOk : Bool
  statusOk : Bool
  streamActive : Bool
  startOk : Bool
  tdOk : Bool
  now : ℚ
  eid : Nat
deriving DecidableEq, Repr

/-- The `FailoverManager._handle_obs_crash` (lines 186-247).  Records an
`obs_crash` downtime event; when fewer than `_max_obs_restart_attempts`
(3) attempts were made it increments the counter and tries
`obs.connect()`:

* on success the counter is reset to `0`, streaming is restarted if the
  status reports it inactive, and the downtime event finalized; an
  `OBSConnectionError` from the post-reconnect calls lands in the same
  `except` block, where the counter (just reset to 0) is below the
  maximum, so no Technical Difficulties escalation happens;
* on connect failure, Technical Difficulties is activated exactly when
  the incremented counter has reached 3.

When the counter is already exhausted (`≥ 3`) no reconnect is attempted
and Technical Difficulties is activated directly. -/
def handleObsCrash (s : FailoverState) (env : CrashTickEnv) :
    FailoverState × List ObsAction :=
  let s1 := recordDowntimeEvent s FailureCause.obsCrash
    "OBS connection lost or unresponsive" env.now env.eid
  if s1.obs_restart_attempts < 3 then
    let s2 : FailoverState :=
      { s1 with obs_restart_attempts := s1.obs_restart_attempts + 1 }
    if env.connectOk then
      let s3 : FailoverState := { s2 with obs_restart_attempts := 0 }
      if env.statusOk then
        if env.streamActive then
          (finalizeCurrentDowntime s3 env.now
             "OBS reconnected automatically (attempt 0)",
           [ObsAction.connectObs])
        else if env.startOk then
          (finalizeCurrentDowntime s3 env.now
             "OBS reconnected automatically (attempt 0)",
           [ObsAction.connectObs, ObsAction.startStream])
        else
          (s3, [ObsAction.connectObs, ObsAction.startStream])
      else
        (s3, [ObsAction.connectObs])
    else
      if 3 ≤ s2.obs_restart_attempts then
        let r := activateTechnicalDifficulties s2
          "OBS failed to restart after 3 attempts" env.tdOk
        (r.1, ObsAction.connectObs :: r.2)
      else (s2, [ObsAction.connectObs])
  else
    activateTechnicalDifficulties s1 "OBS restart attempts exhausted" env.tdOk

/-- A sequence of OBS-crash watchdog ticks, each handled by
`_handle_obs_crash`, collecting all issued OBS actions. -/
def runObsCrashTicks (s : FailoverState) :
    List CrashTickEnv → FailoverState × List ObsAction
  | [] => (s, [])
  | env :: rest =>
    let r := handleObsCrash s env
    let r' := runObsCrashTicks r.1 rest
    (r'.1, r.2 ++ r'.2)

/-- Number of reconnect attempts (`obs.connect()` calls) among a list of
issued OBS actions. -/
def countConnect (acts : List ObsAction) : Nat :=
  acts.countP fun a => decide (a = ObsAction.connectObs)

/-- Number of ticks whose `obs.connect()` call would succeed. -/
def countSuccess (envs : List CrashTickEnv) : Nat :=
  envs.countP fun e => e.connectOk

/-- The Technical Difficulties scene switch was requested. -/
def tdRequested (acts : List ObsAction) : Prop :=
  ObsAction.switchScene "Technical Difficulties" ∈ acts

/-! ### Operator-takeover detector (src/services/owner_detector.py) -/

/-- Scene name that indicates the operator is live
(`OwnerDetector._owner_live_scene`). -/
def ownerLiveScene : String := "Owner Live"

/-- The automated-content scene name hard-coded in
`OwnerDetector._handle_scene_change`. -/
def automatedContentScene : String := "Automated Content"

/-- Callbacks the detector may invoke on a scene change. -/
inductive OwnerEvent
  | ownerLive (interruptedScene : Option String)
  | ownerReturn (ownerScene : String)
deriving DecidableEq, Repr

/-- The `OwnerDetector._handle_scene_change` (lines 192-220): the
operator-live callback fires on a transition into "Owner Live" from any
other scene; the operator-return callback fires only on a transition
from "Owner Live" specifically into "Automated Content". -/
def handleSceneChange (previousScene : Option String) (newScene : String) :
    List OwnerEvent :=
  if newScene = ownerLiveScene ∧ previousScene ≠ some ownerLiveScene then
    [OwnerEvent.ownerLive previousScene]
  else if previousScene = some ownerLiveScene ∧ newScene = automatedContentScene then
    [OwnerEvent.ownerReturn ownerLiveScene]
  else []

/-- One tick of `OwnerDetector._poll_scene_changes` (lines 160-190):
the handler runs only when the observed scene differs from the last
seen one, after which the last-seen scene is updated. -/
def pollStep (currentScene : Option String) (observed : String) :
    Option String × List OwnerEvent :=
  if some observed ≠ currentScene then
    (some observed, handleSceneChange currentScene observed)
  else (currentScene, [])

/-- Process a whole sequence of polled scene observations, collecting
every callback invocation. -/
def pollTrace (currentScene : Option String) :
    List String → List OwnerEvent
  | [] => []
  | s :: rest =>
    let r := pollStep currentScene s
    r.2 ++ pollTrace r.1 rest

/-- Number of operator-return callback invocations in an event list. -/
def countReturns (evs : List OwnerEvent) : Nat :=
  evs.countP fun e =>
    match e with
    | OwnerEvent.ownerReturn _ => true
    | _ => false

/-- Modelled from the spec: the number of transitions, along a polled
observation stream, from the operator scene directly to the
automated-content scene (the per-poll scene only changes when the
observation differs from the last seen scene). -/
def specReturnTransitionCount (currentScene : Option String) :
    List String → Nat
  | [] => 0
  | s :: rest =>
    (if currentScene = some ownerLiveScene ∧ s = automatedContentScene
     then 1 else 0)
    + specReturnTransitionCount
        (if some s ≠ currentScene then some s else currentScene) rest

/-! ### Session coordinator (src/services/stream_manager.py) -/

/-- One iteration of `StreamManager._monitor_stream_health`
(lines 223-284) as far as it touches the session record.  When streaming
is found inactive and the auto-restart succeeds the iteration `continue`s
without touching the session; otherwise (active stream, or failed
restart) it refreshes `total_duration_sec := int(now - start_time)` and
persists.  `downtime_duration_sec` is never written by any service. -/
def monitorTick (sess : StreamSession) (active restartOk : Bool)
    (now : ℚ) : StreamSession :=
  if !active ∧ restartOk then sess
  else { sess with total_duration_sec := pyInt (now - sess.start_time) }

/-- The `StreamManager._finalize_session` (lines 286-315): sets the end time
and the final duration. -/
def finalizeSession (sess : StreamSession) (now : ℚ) : StreamSession :=
  { sess with end_time := some now,
              total_duration_sec := pyInt (now - sess.start_time) }

/-- Run the health-monitor loop over a list of ticks
`(active, restartOk, now)`, returning the final session and the list of
session states observed after each tick. -/
def monitorRun (sess : StreamSession) :
    List (Bool × Bool × ℚ) → StreamSession × List StreamSession
  | [] => (sess, [])
  | t :: rest =>
    let s' := monitorTick sess t.1 t.2.1 t.2.2
    let r := monitorRun s' rest
    (r.1, s' :: r.2)

/-- All states of a session observed across its lifecycle: after
construction in `auto_start_streaming`, after each monitor tick, and
after `_finalize_session`. -/
def observedSessions (sid : Nat) (t0 : ℚ)
    (ticks : List (Bool × Bool × ℚ)) (tEnd : ℚ) : List StreamSession :=
  let s0 := newStreamSession sid t0
  let r := monitorRun s0 ticks
  s0 :: r.2 ++ [finalizeSession r.1 tEnd]

/-- TriggerMethod enum from src/models/owner_session.py. -/
inductive TriggerMethod
  | hotkey
  | sceneChange
deriving DecidableEq, Repr

/-- OwnerSession record (src/models/owner_session.py, the spec's
OperatorSession). -/
structure OwnerSession where
  sessionId : Nat
  streamSessionId : Nat
  start_time : ℚ
  end_time : Option ℚ
  duration_sec : ℤ
  content_interrupted : Option String
  resume_content : Option String
  transition_time_sec : ℚ
  trigger_method : TriggerMethod
deriving DecidableEq, Repr

/-- The `OwnerSessionsRepository.update_owner_session`: point update by
`session_id`. -/
def ownerRepoUpdate (store : List OwnerSession) (o : OwnerSession) :
    List OwnerSession :=
  store.map fun x => if x.sessionId = o.sessionId then o else x

/-- The `ContentScheduler.pause` (content_scheduler.py lines 90-105) as a
function on the `(running, paused)` flags: a no-op unless the scheduler
is running and not yet paused. -/
def schedulerPause (running paused : Bool) : Bool :=
  if !running then paused else if paused then paused else true

/-- The `ContentScheduler.resume` (content_scheduler.py lines 107-122):
a no-op unless the scheduler is running and paused. -/
def schedulerResume (running paused : Bool) : Bool :=
  if !running then paused else if !paused then paused else false

/-- Mutable state of StreamManager (src/services/stream_manager.py)
relevant to the operator-event handlers, together with the optional
owner-sessions repository (modelled by a presence flag plus its
persisted store) and the optional content scheduler (presence flag plus
its `_running` / `_paused` flags). -/
structure StreamMgrState where
  current_session : Option StreamSession
  current_owner_session : Option OwnerSession
  ownerRepoPresent : Bool
  schedulerPresent : Bool
  scheduler_running : Bool
  scheduler_paused : Bool
  owner_store : List OwnerSession
deriving DecidableEq, Repr

/-- The `StreamManager.handle_owner_goes_live` (lines 317-374): without the
optional repository, or without an active stream session, the handler
logs and returns (no record created, no pause).  Otherwise it creates
and persists an ongoing OwnerSession and pauses the content scheduler
when one is attached. -/
def handleOwnerGoesLive (s : StreamMgrState) (interruptedScene : String)
    (transitionTimeSec : ℚ) (trig : TriggerMethod) (now : ℚ)
    (oid : Nat) : StreamMgrState :=
  if !s.ownerRepoPresent then s
  else
    match s.current_session with
    | none => s
    | some sess =>
      let os : OwnerSession :=
        { sessionId := oid, streamSessionId := sess.sessionId,
          start_time := now, end_time := none, duration_sec := 0,
          content_interrupted := some interruptedScene,
          resume_content := none,
          transition_time_sec := transitionTimeSec,
          trigger_method := trig }
      let s1 : StreamMgrState :=
        { s with owner_store := s.owner_store ++ [os],
                 current_owner_session := some os }
      if s1.schedulerPresent then
        { s1 with scheduler_paused :=
            schedulerPause s1.scheduler_running s1.scheduler_paused }
      else s1

/-- The `StreamManager.handle_owner_returns` (lines 376-419): without the
optional repository, or without an open owner session, the handler logs
and returns.  Otherwise it closes the owner session (end time and
`int(elapsed)` duration), persists the update and resumes the content
scheduler when one is attached. -/
def handleOwnerReturns (s : StreamMgrState) (now : ℚ) : StreamMgrState :=
  if !s.ownerRepoPresent then s
  else
    match s.current_owner_session with
    | none => s
    | some os =>
      let os' : OwnerSession :=
        { os with end_time := some now,
                  duration_sec := pyInt (now - os.start_time) }
      let s1 : StreamMgrState :=
        { s with owner_store := ownerRepoUpdate s.owner_store os',
                 current_owner_session := none }
      if s1.schedulerPresent then
        { s1 with scheduler_paused :=
            schedulerResume s1.scheduler_running s1.scheduler_paused }
      else s1

/-! ### Health sampler (src/services/health_monitor.py) -/

/-- ConnectionStatus enum from src/models/health_metric.py. -/
inductive ConnectionStatus
  | connected
  | disconnected
  | degraded
deriving DecidableEq, Repr

/-- StreamingStatus enum from src/models/health_metric.py. -/
inductive StreamingStatus
  | streaming
  | stopped
  | starting
  | stopping
deriving DecidableEq, Repr

/-- HealthMetric record (src/models/health_metric.py). -/
structure HealthMetric where
  metricId : Nat
  streamSessionId : Nat
  timestamp : ℚ
  bitrate_kbps : ℚ
  dropped_frames_pct : ℚ
  cpu_usage_pct : ℚ
  active_scene : String
  active_source : Option String
  connection_status : ConnectionStatus
  streaming_status : StreamingStatus
deriving DecidableEq, Repr

/-- Data returned by the three OBS calls of a successful sampling tick
(`get_streaming_status`, `get_stats`, `get_current_scene`). -/
structure ObsSnapshot where
  active : Bool
  reconnecting : Bool
  duration_ms : ℚ
  outputBytes : ℚ
  outputSkippedFrames : ℚ
  outputTotalFrames : ℚ
  currentScene : String
deriving DecidableEq, Repr

/-- The `HealthMonitor._collect_metrics` (lines 150-237).  `none` for
`obsResult` models an `OBSConnectionError` raised by one of the OBS
calls: the sampler then still returns a metric with zeroed OBS-derived
fields, scene "Unknown", disconnected connection status and stopped
streaming status (the CPU gauge is sampled from the operating system,
not from OBS, and is still measured).  Without a current session no
metric is produced. -/
def collectMetrics (sessionId : Option Nat) (obsResult : Option ObsSnapshot)
    (cpu : ℚ) (now : ℚ) (mid : Nat) : Option HealthMetric :=
  match sessionId with
  | none => none
  | some sid =>
    match obsResult with
    | none =>
      some { metricId := mid, streamSessionId := sid, timestamp := now,
             bitrate_kbps := 0, dropped_frames_pct := 0,
             cpu_usage_pct := cpu, active_scene := "Unknown",
             active_source := none,
             connection_status := ConnectionStatus.disconnected,
             streaming_status := StreamingStatus.stopped }
    | some snap =>
      let conn :=
        if !snap.active then ConnectionStatus.disconnected
        else if snap.reconnecting then ConnectionStatus.degraded
        else ConnectionStatus.connected
      let strm :=
        if snap.active then StreamingStatus.streaming
        else StreamingStatus.stopped
      let bitrate :=
        if 0 < snap.duration_ms then
          snap.outputBytes * 8 / 1000 / snap.duration_ms * 1000
        else 0
      let dropped :=
        if 0 < snap.outputTotalFrames then
          snap.outputSkippedFrames / snap.outputTotalFrames * 100
        else 0
      some { metricId := mid, streamSessionId := sid, timestamp := now,
             bitrate_kbps := bitrate, dropped_frames_pct := dropped,
             cpu_usage_pct := cpu, active_scene := snap.currentScene,
             active_source := none, connection_status := conn,
             streaming_status := strm }

/-- One iteration of `HealthMonitor._monitoring_loop` (lines 101-148) as
far as it touches the metrics store: the collected metric, when there is
one, is persisted via `metrics_repo.create` (the degraded / failure
checks only log). -/
def monitoringTick (sessionId : Option Nat) (obsResult : Option ObsSnapshot)
    (cpu : ℚ) (now : ℚ) (mid : Nat) (store : List HealthMetric) :
    List HealthMetric :=
  match collectMetrics sessionId obsResult cpu now mid with
  | some m => store ++ [m]
  | none => store

/-! ### Content sequencer (src/services/content_scheduler.py and
src/persistence/repositories/content_library.py) -/

/-- AgeRating enum from src/models/content_library.py. -/
inductive AgeRating
  | kids
  | adult
  | all
deriving DecidableEq, Repr

/-- SourceAttribution enum from src/models/content_library.py. -/
inductive SourceAttribution
  | mitOcw
  | cs50
  | khanAcademy
  | blender
deriving DecidableEq, Repr

/-- The `.value` string of a SourceAttribution member. -/
def SourceAttribution.value : SourceAttribution → String
  | SourceAttribution.mitOcw => "MIT_OCW"
  | SourceAttribution.cs50 => "CS50"
  | SourceAttribution.khanAcademy => "KHAN_ACADEMY"
  | SourceAttribution.blender => "BLENDER"

/-- ContentSource record (src/models/content_library.py), restricted to
the fields read by the content scheduler and the `ORDER BY` columns of
the repository (the licensing / filesystem metadata fields `file_path`,
`file_size_mb`, `license_type`, `course_name`, `source_url`,
`attribution_text`, `tags`, `last_verified` play no role in the
operations modelled here). -/
structure ContentSource where
  sourceId : Nat
  title : String
  windows_obs_path : String
  duration_sec : Nat
  width : Nat
  height : Nat
  source_attribution : SourceAttribution
  age_rating : AgeRating
  time_blocks : List String
  priority : Nat
deriving DecidableEq, Repr

/-- The `ORDER BY priority ASC, title ASC` ordering used by
`ContentSourceRepository.list_all` (content_library.py line 359). -/
def contentLe (a b : ContentSource) : Prop :=
  a.priority < b.priority ∨ (a.priority = b.priority ∧ a.title ≤ b.title)

instance : DecidableRel contentLe := fun a b => by
  unfold contentLe; infer_instance

instance : IsTotal ContentSource contentLe where
  total a b := by
    unfold contentLe
    rcases lt_trichotomy a.priority b.priority with h | h | h
    · exact Or.inl (Or.inl h)
    · rcases le_total a.title b.title with ht | ht
      · exact Or.inl (Or.inr ⟨h, ht⟩)
      · exact Or.inr (Or.inr ⟨h.symm, ht⟩)
    · exact Or.inr (Or.inl h)

instance : IsTrans ContentSource contentLe where
  trans a b c hab hbc := by
    unfold contentLe at *
    rcases hab with h1 | ⟨h1, h1t⟩
    · rcases hbc with h2 | ⟨h2, _⟩
      · exact Or.inl (h1.trans h2)
      · exact Or.inl (h2 ▸ h1)
    · rcases hbc with h2 | ⟨h2, h2t⟩
      · exact Or.inl (h1 ▸ h2)
      · exact Or.inr ⟨h1.trans h2, h1t.trans h2t⟩

/-- The `ContentSourceRepository.list_all`: returns the stored rows ordered
by `priority ASC, title ASC` (modelled by sorting the raw table with a
sort that realizes that ORDER BY). -/
def listAll (table : List ContentSource) : List ContentSource :=
  List.insertionSort contentLe table

/-- The `ContentScheduler._get_current_time_block` (lines 301-326), as a
function of the current UTC hour and weekday (0 = Monday). -/
def getCurrentTimeBlock (hour weekday : Nat) : String :=
  if weekday < 5 ∧ 15 ≤ hour ∧ hour < 18 then "after_school_kids"
  else if weekday < 5 ∧ 9 ≤ hour ∧ hour < 15 then "professional_hours"
  else if 19 ≤ hour ∧ hour < 22 then "evening_mixed"
  else "general"

/-- The `ContentScheduler._get_age_rating_for_time_block` (lines 328-344). -/
def ageRatingForTimeBlock (timeBlock : String) : AgeRating :=
  if timeBlock = "after_school_kids" then AgeRating.kids
  else if timeBlock = "professional_hours" then AgeRating.adult
  else if timeBlock = "evening_mixed" then AgeRating.all
  else if timeBlock = "general" then AgeRating.all
  else if timeBlock = "failover" then AgeRating.all
  else AgeRating.all

/-- The `ContentScheduler._is_age_appropriate` (lines 408-430). -/
def isAgeAppropriate (contentAge requiredAge : AgeRating) : Bool :=
  if contentAge = AgeRating.all then true
  else if contentAge = AgeRating.kids ∧ requiredAge = AgeRating.kids then true
  else if contentAge = AgeRating.adult ∧
      (requiredAge = AgeRating.adult ∨ requiredAge = AgeRating.all) then true
  else false

/-- Python's stable `list.sort(key=lambda c: c.priority)` insertion: the
new element is placed after every element whose priority key is `≤` its
own, preserving the relative order of equal keys. -/
def pySortInsert (a : ContentSource) : List ContentSource → List ContentSource
  | [] => [a]
  | b :: l =>
    if b.priority ≤ a.priority then b :: pySortInsert a l
    else a :: b :: l

/-- The `matching_content.sort(key=lambda c: c.priority)`
(content_scheduler.py line 398): a stable sort by the priority key
alone, modelled as stable insertion sort. -/
def pySortByPriority (l : List ContentSource) : List ContentSource :=
  l.foldl (fun acc a => pySortInsert a acc) []

/-- The `ContentScheduler._select_content_for_current_time` (lines 346-406):
reads the catalog via `list_all`, filters by current time block and age
appropriateness, falls back to the "general" block when nothing
matches, then sorts by the priority key. -/
def selectContentForCurrentTime (table : List ContentSource)
    (hour weekday : Nat) : List ContentSource :=
  let currentTimeBlock := getCurrentTimeBlock hour weekday
  let requiredAgeRating := ageRatingForTimeBlock currentTimeBlock
  let allContent := listAll table
  let matching := allContent.filter fun c =>
    c.time_blocks.contains currentTimeBlock &&
      isAgeAppropriate c.age_rating requiredAgeRating
  let matching2 :=
    if matching.isEmpty then
      allContent.filter fun c =>
        c.time_blocks.contains "general" &&
          isAgeAppropriate c.age_rating requiredAgeRating
    else matching
  pySortByPriority matching2

/-- Steps performed by one iteration of the content playback loop. -/
inductive PlaybackStep
  | updateMediaSource (file : String)
  | scaleSource
  | updateCredits (text : String)
  | switchScene (name : String)
  | sleepSec (d : ℚ)
  | signalContentFailure
deriving DecidableEq, Repr

/-- One database-mode iteration of
`ContentScheduler._content_playback_loop` (lines 158-299).  When paused
the loop only idle-waits one second.  Otherwise it takes the next
candidate round-robin (the rotation index is incremented immediately,
line 170), updates the Content Player media source, scales it, updates
the Content Credits overlay, switches to the "Automated Content" scene
and sleeps for the item's real duration.  The completion log at
line 272 (`logger.info("content_playback_complete",
file=content_file.name)`) then reads the local variable `content_file`,
which in database mode is never assigned (only `content_source` and
`content_file_name` are), so the iteration raises `UnboundLocalError`;
the generic `except Exception` handler at line 290 calls
`failover_manager.handle_content_failure`, and the 0.5 s transition
sleep at line 275 is never reached.  `obsOk = false` coarsely models an
`OBSConnectionError` from one of the control-surface calls of the
iteration, which lands in the handler at line 280 and likewise signals
the content-failure path (the actions emitted before the failing call
are not tracked on that branch). -/
def playbackIterationDb (sources : List ContentSource) (idx : Nat)
    (paused : Bool) (obsOk : Bool) : Nat × List PlaybackStep :=
  if paused then (idx, [PlaybackStep.sleepSec 1])
  else
    match sources with
    | [] => (idx, [])
    | c0 :: cs =>
      let c := (c0 :: cs).get ⟨idx % (c0 :: cs).length, Nat.mod_lt _ (Nat.succ_pos _)⟩
      let idx' := idx + 1
      if obsOk then
        (idx',
         [PlaybackStep.updateMediaSource c.windows_obs_path,
          PlaybackStep.scaleSource,
          PlaybackStep.updateCredits
            (c.title ++ "\nSource: " ++ c.source_attribution.value),
          PlaybackStep.switchScene "Automated Content",
          PlaybackStep.sleepSec (c.duration_sec : ℚ),
          PlaybackStep.signalContentFailure])
      else (idx', [PlaybackStep.signalContentFailure])

/-! ## Theorems -/

/-- C8: on a health-sampler tick during which the control-surface call
fails (`obsResult = none` models the `OBSConnectionError`), a metric is
still persisted for the tick — with zeroed OBS-derived fields, scene
"Unknown", connection status disconnected and streaming status stopped
— so the tick never produces zero persisted metrics. -/
theorem c8_obs_failure_tick_still_persists_metric :
    ∀ (sid mid : Nat) (cpu now : ℚ) (store : List HealthMetric),
      monitoringTick (some sid) none cpu now mid store =
        store ++
          [{ metricId := mid, streamSessionId := sid, timestamp := now,
             bitrate_kbps := 0, dropped_frames_pct := 0,
             cpu_usage_pct := cpu, active_scene := "Unknown",
             active_source := none,
             connection_status := ConnectionStatus.disconnected,
             streaming_status := StreamingStatus.stopped }] ∧
      (monitoringTick (some sid) none cpu now mid store).length =
        store.length + 1 := by
  intro sid mid cpu now store
  refine ⟨rfl, ?_⟩
  simp [monitoringTick, collectMetrics]

/-- The state component of a poll tick: the last-seen scene always
becomes the observed scene. -/
lemma pollStep_fst (cur : Option String) (s : String) :
    (pollStep cur s).1 = if some s ≠ cur then some s else cur := by
  unfold pollStep
  split <;> rfl

/-- The owner-live scene and the automated-content scene differ. -/
lemma ownerLive_ne_automated : ownerLiveScene ≠ automatedContentScene := by
  decide

/-- Number of operator-return callbacks fired by a single poll tick. -/
lemma pollStep_countReturns (cur : Option String) (s : String) :
    countReturns (pollStep cur s).2 =
      if cur = some ownerLiveScene ∧ s = automatedContentScene then 1
      else 0 := by
  unfold pollStep handleSceneChange
  by_cases hne : some s ≠ cur
  · rw [if_pos hne]
    by_cases h1 : s = ownerLiveScene ∧ cur ≠ some ownerLiveScene
    · rw [if_pos h1]
      have : ¬(cur = some ownerLiveScene ∧ s = automatedContentScene) := by
        rintro ⟨hc, _⟩; exact h1.2 hc
      simp [countReturns, this]
    · rw [if_neg h1]
      by_cases h2 : cur = some ownerLiveScene ∧ s = automatedContentScene
      · simp [h2, countReturns]
      · simp [h2, countReturns]
  · rw [if_neg hne]
    push_neg at hne
    have : ¬(cur = some ownerLiveScene ∧ s = automatedContentScene) := by
      rintro ⟨hc, hs⟩
      rw [hc] at hne
      exact ownerLive_ne_automated (Option.some_injective _ hne.symm ▸ hs ▸ rfl)
    simp [countReturns, this]

/-- Membership characterization of the operator-return callback on one
poll tick. -/
lemma pollStep_return_mem_iff (cur : Option String) (s : String) :
    OwnerEvent.ownerReturn ownerLiveScene ∈ (pollStep cur s).2 ↔
      (cur = some ownerLiveScene ∧ s = automatedContentScene) := by
  constructor
  · intro hmem
    by_contra hcond
    have := pollStep_countReturns cur s
    rw [if_neg hcond] at this
    have hz : countReturns (pollStep cur s).2 ≠ 0 := by
      unfold countReturns
      intro h0
      rw [List.countP_eq_zero] at h0
      exact absurd (h0 _ hmem) (by simp)
    exact hz this
  · rintro ⟨hc, hs⟩
    subst hc
    subst hs
    unfold pollStep handleSceneChange
    have hne : some automatedContentScene ≠ some ownerLiveScene := by decide
    simp [hne, ownerLive_ne_automated]

/-- The operator-return count of a processed observation stream equals
the number of owner-to-automated transitions in that stream. -/
lemma pollTrace_countReturns :
    ∀ (trace : List String) (cur : Option String),
      countReturns (pollTrace cur trace) =
        specReturnTransitionCount cur trace := by
  intro trace
  induction trace with
  | nil => intro cur; rfl
  | cons s rest ih =>
    intro cur
    show countReturns ((pollStep cur s).2 ++ pollTrace (pollStep cur s).1 rest) = _
    unfold countReturns
    rw [List.countP_append]
    show countReturns (pollStep cur s).2 + countReturns (pollTrace (pollStep cur s).1 rest) = _
    rw [pollStep_countReturns, ih, pollStep_fst]
    rfl

/-- C2: the operator-return callback fires on a poll tick iff the scene
transitions from the operator scene ("Owner Live") directly into the
automated-content scene ("Automated Content"); a transition from the
operator scene to any third scene fires zero operator-return callbacks;
and along any sequence of polled observations the number of
operator-return callbacks equals the number of such transitions. -/
theorem c2_operator_return_iff :
    (∀ (cur : Option String) (s : String),
       OwnerEvent.ownerReturn ownerLiveScene ∈ (pollStep cur s).2 ↔
         (cur = some ownerLiveScene ∧ s = automatedContentScene)) ∧
    (∀ s : String, s ≠ automatedContentScene →
       countReturns (pollStep (some ownerLiveScene) s).2 = 0) ∧
    (∀ (cur : Option String) (trace : List String),
       countReturns (pollTrace cur trace) =
         specReturnTransitionCount cur trace) := by
  refine ⟨pollStep_return_mem_iff, ?_, fun cur trace => pollTrace_countReturns trace cur⟩
  intro s hs
  rw [pollStep_countReturns]
  simp [hs]

/-- C2 witness: a third scene fires no operator-return callback, the
direct owner-to-automated transition does, and the callback count of a
concrete observation stream matches its transition count. -/
theorem c2_operator_return_iff_witness :
    ("Scene 2" ≠ automatedContentScene ∧
      countReturns (pollStep (some ownerLiveScene) "Scene 2").2 = 0) ∧
    (OwnerEvent.ownerReturn ownerLiveScene ∈
        (pollStep (some ownerLiveScene) automatedContentScene).2 ↔
      (some ownerLiveScene = some ownerLiveScene ∧
        automatedContentScene = automatedContentScene)) ∧
    countReturns (pollTrace (some ownerLiveScene)
        ["Scene 2", ownerLiveScene, automatedContentScene]) =
      specReturnTransitionCount (some ownerLiveScene)
        ["Scene 2", ownerLiveScene, automatedContentScene] :=
  ⟨⟨by decide, c2_operator_return_iff.2.1 "Scene 2" (by decide)⟩,
   c2_operator_return_iff.1 _ _,
   c2_operator_return_iff.2.2 _ _⟩

/-- C9: the operator-live handler invoked with no active stream session,
and the operator-return handler invoked with no open owner session, are
no-ops: the whole coordinator state — owner-session store, current
handles, and the content scheduler's pause flag — is returned unchanged
(the embedded handlers are total functions: the guarded paths only log,
so no exception escapes to the caller). -/
theorem c9_handlers_noop_without_session :
    (∀ (s : StreamMgrState) (i : String) (t : ℚ) (m : TriggerMethod)
       (now : ℚ) (oid : Nat),
       s.current_session = none → handleOwnerGoesLive s i t m now oid = s) ∧
    (∀ (s : StreamMgrState) (now : ℚ),
       s.current_owner_session = none → handleOwnerReturns s now = s) := by
  constructor
  · intro s i t m now oid h
    unfold handleOwnerGoesLive
    rw [h]
    split <;> rfl
  · intro s now h
    unfold handleOwnerReturns
    rw [h]
    split <;> rfl

/-- A coordinator state with the optional collaborators attached but no
active stream session and no open owner session. -/
def mgrNoSession : StreamMgrState :=
  { current_session := none, current_owner_session := none,
    ownerRepoPresent := true, schedulerPresent := true,
    scheduler_running := true, scheduler_paused := false,
    owner_store := [] }

/-- C9 witness: both handlers leave a concrete session-less coordinator
state untouched. -/
theorem c9_handlers_noop_witness :
    (mgrNoSession.current_session = none ∧
      handleOwnerGoesLive mgrNoSession "Automated Content" (1/2)
        TriggerMethod.sceneChange 100 1 = mgrNoSession) ∧
    (mgrNoSession.current_owner_session = none ∧
      handleOwnerReturns mgrNoSession 100 = mgrNoSession) :=
  ⟨⟨rfl, c9_handlers_noop_without_session.1 mgrNoSession "Automated Content"
      (1/2) TriggerMethod.sceneChange 100 1 rfl⟩,
   ⟨rfl, c9_handlers_noop_without_session.2 mgrNoSession 100 rfl⟩⟩

/-- Replacing a stored event by an update with the same identity keeps
the update in the store. -/
lemma repoUpdate_mem_self {store : List DowntimeEvent} {e e' : DowntimeEvent}
    (h : e ∈ store) (hid : e.eventId = e'.eventId) :
    e' ∈ repoUpdate store e' := by
  unfold repoUpdate
  exact List.mem_map.mpr ⟨e, h, by simp [hid]⟩

/-- The `_activate_failover` outside failover mode always requests the
Failover scene switch. -/
lemma activateFailover_requests_switch (s : FailoverState) (ra : String)
    (o : ObsOutcomes) (h : s.in_failover_mode = false) :
    ObsAction.switchScene "Failover" ∈ (activateFailover s ra o).2 := by
  unfold activateFailover
  rw [h]
  by_cases ho : o.switchFailoverOk
  · cases hcd : s.current_downtime_event <;> simp [ho, hcd]
  · simp [ho]

/-- The `_activate_failover` outside failover mode keeps the current
downtime event in the store, with its failure cause and (absent) end
time untouched — only the recovery action may change. -/
lemma activateFailover_keeps_event (s : FailoverState) (ra : String)
    (o : ObsOutcomes) (h : s.in_failover_mode = false) (e : DowntimeEvent)
    (hcd : s.current_downtime_event = some e) (hmem : e ∈ s.events_store) :
    ∃ e' ∈ (activateFailover s ra o).1.events_store,
      e'.failure_cause = e.failure_cause ∧ e'.end_time = e.end_time := by
  unfold activateFailover
  rw [h]
  by_cases ho : o.switchFailoverOk
  · refine ⟨{ e with recovery_action := ra }, ?_, rfl, rfl⟩
    simp only [ho, if_true, Bool.false_eq_true, if_false, hcd]
    exact repoUpdate_mem_self hmem rfl
  · unfold activateTechnicalDifficulties
    by_cases htd : o.switchTechDiffOk
    · refine ⟨{ e with recovery_action :=
        "Technical Difficulties scene activated: Failover scene switch failed" },
        ?_, rfl, rfl⟩
      simp only [ho, htd, hcd, Bool.false_eq_true, if_false, if_true]
      exact repoUpdate_mem_self hmem rfl
    · refine ⟨e, ?_, rfl, rfl⟩
      simp only [ho, htd, hcd, Bool.false_eq_true, if_false, if_true]
      exact hmem

/-- C3: when the content-failure handler runs while a stream session is
monitored and the escalator is not in failover mode, the single call
requests the Failover scene switch on the control surface and leaves a
content-failure DowntimeEvent with `end_time = None` in the persisted
store (whatever the outcomes of the scene switches are). -/
theorem c3_content_failure_single_call :
    ∀ (s : FailoverState) (msg : String) (now : ℚ) (eid : Nat)
      (o : ObsOutcomes) (sess : StreamSession),
      s.current_session = some sess → s.in_failover_mode = false →
      ObsAction.switchScene "Failover" ∈ (handleContentFailure s msg now eid o).2 ∧
      ∃ e ∈ (handleContentFailure s msg now eid o).1.events_store,
        e.failure_cause = FailureCause.contentFailure ∧ e.end_time = none := by
  intro s msg now eid o sess hsess hfm
  set e0 : DowntimeEvent :=
    { eventId := eid, streamSessionId := sess.sessionId,
      start_time := now, end_time := none, duration_sec := 0,
      failure_cause := FailureCause.contentFailure,
      recovery_action := "Content playback failed: " ++ msg,
      automatic_recovery := true } with he0
  set s1 : FailoverState :=
    { current_session := some sess, current_downtime_event := some e0,
      in_failover_mode := s.in_failover_mode,
      obs_restart_attempts := s.obs_restart_attempts,
      events_store := s.events_store ++ [e0] } with hs1
  have h1 : handleContentFailure s msg now eid o =
      activateFailover s1 "Switched to failover scene" o := by
    unfold handleContentFailure recordDowntimeEvent
    rw [hsess]
  have hfm1 : s1.in_failover_mode = false := hfm
  rw [h1]
  constructor
  · exact activateFailover_requests_switch s1 _ o hfm1
  · have hcd : s1.current_downtime_event = some e0 := rfl
    have hmem0 : e0 ∈ s1.events_store := by
      rw [hs1]
      simp
    obtain ⟨e', hmem, hc, he⟩ :=
      activateFailover_keeps_event s1 "Switched to failover scene" o hfm1
        e0 hcd hmem0
    exact ⟨e', hmem, by rw [hc], by rw [he]⟩

/-- A concrete monitored session for witnesses. -/
def testSession : StreamSession := newStreamSession 42 0

/-- A concrete escalator state monitoring `testSession`, outside
failover mode. -/
def monitoredState : FailoverState :=
  { current_session := some testSession, current_downtime_event := none,
    in_failover_mode := false, obs_restart_attempts := 0,
    events_store := [] }

/-- C3 witness: a concrete content-failure call on a monitored,
non-failover state requests the Failover switch and stores an ongoing
content-failure event. -/
theorem c3_content_failure_witness :
    (monitoredState.current_session = some testSession ∧
      monitoredState.in_failover_mode = false) ∧
    ObsAction.switchScene "Failover" ∈
      (handleContentFailure monitoredState "no content" 5 7
        ⟨true, true⟩).2 ∧
    ∃ e ∈ (handleContentFailure monitoredState "no content" 5 7
        ⟨true, true⟩).1.events_store,
      e.failure_cause = FailureCause.contentFailure ∧ e.end_time = none :=
  ⟨⟨rfl, rfl⟩,
   c3_content_failure_single_call monitoredState "no content" 5 7
     ⟨true, true⟩ testSession rfl rfl⟩

/-- A concrete escalator state with no monitored session that is already
in failover mode (reachable: a second content failure arriving before
any session is monitored, after a first one switched to Failover). -/
def noSessionInFailoverState : FailoverState :=
  { current_session := none, current_downtime_event := none,
    in_failover_mode := true, obs_restart_attempts := 0,
    events_store := [] }

/-- C10 counterexample: invoked with no current stream session but with
the escalator already in failover mode, the content-failure handler
does not attempt the Failover scene switch (`_activate_failover` is a
no-op then), so the claim's conjunction fails at this input even though
the store is unchanged. -/
theorem c10_counterexample_already_in_failover :
    ¬ ((handleContentFailure noSessionInFailoverState "content error" 0 1
          ⟨true, true⟩).1.events_store =
            noSessionInFailoverState.events_store ∧
       ObsAction.switchScene "Failover" ∈
         (handleContentFailure noSessionInFailoverState "content error" 0 1
           ⟨true, true⟩).2 ∧
       (handleContentFailure noSessionInFailoverState "content error" 0 1
          ⟨true, true⟩).1.in_failover_mode = true) := by
  decide

/-- C10 (amended): whenever the content-failure handler is invoked
while the escalator has no current stream session (and hence no current
downtime-event handle), no DowntimeEvent is created or persisted — the
store is unchanged and the downtime handle stays empty; if additionally
the escalator is not already in failover mode, the Failover scene
switch is still attempted, and the escalator enters failover mode
exactly when that switch succeeds (on switch failure it requests the
Technical Difficulties scene instead). -/
theorem c10_no_session_content_failure :
    ∀ (s : FailoverState) (msg : String) (now : ℚ) (eid : Nat)
      (o : ObsOutcomes),
      s.current_session = none → s.current_downtime_event = none →
      (handleContentFailure s msg now eid o).1.events_store = s.events_store ∧
      (handleContentFailure s msg now eid o).1.current_downtime_event = none ∧
      (s.in_failover_mode = false →
        ObsAction.switchScene "Failover" ∈
          (handleContentFailure s msg now eid o).2 ∧
        (handleContentFailure s msg now eid o).1.in_failover_mode =
          o.switchFailoverOk ∧
        (o.switchFailoverOk = false →
          ObsAction.switchScene "Technical Difficulties" ∈
            (handleContentFailure s msg now eid o).2)) := by
  intro s msg now eid o hsess hcd
  have h1 : handleContentFailure s msg now eid o =
      activateFailover s "Switched to failover scene" o := by
    unfold handleContentFailure recordDowntimeEvent
    rw [hsess]
  rw [h1]
  by_cases hfm : s.in_failover_mode = true
  · -- already in failover mode: _activate_failover is a no-op
    unfold activateFailover
    rw [if_pos hfm]
    refine ⟨rfl, hcd, ?_⟩
    intro hfm'
    rw [hfm'] at hfm
    exact Bool.noConfusion hfm
  · have hfm0 : s.in_failover_mode = false := by
      revert hfm
      cases s.in_failover_mode <;> simp
    unfold activateFailover activateTechnicalDifficulties
    rw [hfm0]
    by_cases ho : o.switchFailoverOk
    · simp [ho, hcd]
    · by_cases htd : o.switchTechDiffOk
      · simp [ho, htd, hcd, hfm0]
      · simp [ho, htd, hcd, hfm0]

/-- A concrete escalator state with no monitored session, outside
failover mode. -/
def noSessionState : FailoverState :=
  { current_session := none, current_downtime_event := none,
    in_failover_mode := false, obs_restart_attempts := 0,
    events_store := [] }

/-- C10 witness: the amended statement evaluated on a concrete
session-less state outside failover mode with a failing Failover
switch, and on the concrete session-less state already in failover
mode, where the store-unchanged part still holds. -/
theorem c10_no_session_content_failure_witness :
    ((noSessionState.current_session = none ∧
        noSessionState.current_downtime_event = none) ∧
      (handleContentFailure noSessionState "content error" 0 1
          ⟨false, true⟩).1.events_store = noSessionState.events_store ∧
      (handleContentFailure noSessionState "content error" 0 1
          ⟨false, true⟩).1.current_downtime_event = none ∧
      (noSessionState.in_failover_mode = false →
        ObsAction.switchScene "Failover" ∈
          (handleContentFailure noSessionState "content error" 0 1
            ⟨false, true⟩).2 ∧
        (handleContentFailure noSessionState "content error" 0 1
            ⟨false, true⟩).1.in_failover_mode = false ∧
        (false = false →
          ObsAction.switchScene "Technical Difficulties" ∈
            (handleContentFailure noSessionState "content error" 0 1
              ⟨false, true⟩).2))) ∧
    ((noSessionInFailoverState.current_session = none ∧
        noSessionInFailoverState.current_downtime_event = none) ∧
      (handleContentFailure noSessionInFailoverState "content error" 0 1
          ⟨true, true⟩).1.events_store =
        noSessionInFailoverState.events_store ∧
      (handleContentFailure noSessionInFailoverState "content error" 0 1
          ⟨true, true⟩).1.current_downtime_event = none) :=
  ⟨⟨⟨rfl, rfl⟩,
    c10_no_session_content_failure noSessionState "content error" 0 1
      ⟨false, true⟩ rfl rfl⟩,
   ⟨⟨rfl, rfl⟩,
    (c10_no_session_content_failure noSessionInFailoverState
      "content error" 0 1 ⟨true, true⟩ rfl rfl).1,
    (c10_no_session_content_failure noSessionInFailoverState
      "content error" 0 1 ⟨true, true⟩ rfl rfl).2.1⟩⟩

/-- C4: a validated DowntimeEvent with a set end time has
`end_time > start_time`; and finalizing an event at a time strictly
after its start (the wall clock is strictly monotone between the
creation and the finalization of an event) sets `end_time` to that time
and makes `duration_sec` exactly the difference `end_time - start_time`
in seconds, with the strict ordering holding on the finalized event. -/
theorem c4_downtime_event_invariant :
    (∀ (eid sid : Nat) (startT : ℚ) (endT : Option ℚ) (dur : ℚ)
       (cause : FailureCause) (act : String) (auto : Bool)
       (e : DowntimeEvent),
       DowntimeEvent.validated eid sid startT endT dur cause act auto =
         some e →
       ∀ t, e.end_time = some t → e.start_time < t) ∧
    (∀ (e : DowntimeEvent) (now : ℚ) (act : String),
       e.start_time < now →
       (finalizeDowntimeEvent e now act).end_time = some now ∧
       ∀ t, (finalizeDowntimeEvent e now act).end_time = some t →
         (finalizeDowntimeEvent e now act).start_time < t ∧
         (finalizeDowntimeEvent e now act).duration_sec =
           t - (finalizeDowntimeEvent e now act).start_time) := by
  constructor
  · intro eid sid startT endT dur cause act auto e h t ht
    unfold DowntimeEvent.validated at h
    split_ifs at h with hcond
    injection h with h'
    subst h'
    obtain ⟨h1, -⟩ := hcond
    have hend : endT = some t := ht
    subst hend
    have h2 : validateEndTime startT (some t) = true := h1
    unfold validateEndTime at h2
    exact of_decide_eq_true h2
  · intro e now act hlt
    refine ⟨rfl, ?_⟩
    intro t ht
    have hts : t = now := by
      injection ht with h'
      exact h'.symm
    subst hts
    exact ⟨hlt, rfl⟩

/-- An ongoing DowntimeEvent used in witnesses. -/
def ongoingEvent : DowntimeEvent :=
  { eventId := 9, streamSessionId := 42, start_time := 1,
    end_time := none, duration_sec := 0,
    failure_cause := FailureCause.obsCrash, recovery_action := "r",
    automatic_recovery := true }

/-- C4 witness: a concretely validated event with `end_time = 5` has
start strictly before 5, and finalizing `ongoingEvent` at time 3
produces `end_time = 3` and `duration_sec = 3 - 1`. -/
theorem c4_downtime_event_invariant_witness :
    (DowntimeEvent.validated 1 2 0 (some 5) 5 FailureCause.connectionLost
        "x" true =
      some { eventId := 1, streamSessionId := 2, start_time := 0,
             end_time := some 5, duration_sec := 5,
             failure_cause := FailureCause.connectionLost,
             recovery_action := "x", automatic_recovery := true } ∧
      ({ eventId := 1, streamSessionId := 2, start_time := 0,
         end_time := some 5, duration_sec := 5,
         failure_cause := FailureCause.connectionLost,
         recovery_action := "x",
         automatic_recovery := true } : DowntimeEvent).start_time < 5) ∧
    (ongoingEvent.start_time < 3 ∧
      (finalizeDowntimeEvent ongoingEvent 3 "done").end_time = some 3 ∧
      ∀ t, (finalizeDowntimeEvent ongoingEvent 3 "done").end_time = some t →
        (finalizeDowntimeEvent ongoingEvent 3 "done").start_time < t ∧
        (finalizeDowntimeEvent ongoingEvent 3 "done").duration_sec =
          t - (finalizeDowntimeEvent ongoingEvent 3 "done").start_time) :=
  ⟨⟨by decide,
    c4_downtime_event_invariant.1 1 2 0 (some 5) 5
      FailureCause.connectionLost "x" true _ (by decide) 5 rfl⟩,
   ⟨by decide,
    c4_downtime_event_invariant.2 ongoingEvent 3 "done" (by decide)⟩⟩

/-- Python `int()` of a nonnegative number of seconds is nonnegative. -/
lemma pyInt_nonneg {q : ℚ} (h : 0 ≤ q) : 0 ≤ pyInt q := by
  unfold pyInt
  rw [if_pos h]
  exact Int.le_floor.mpr (by exact_mod_cast h)

/-- Invariant of the health-monitor loop: the session's downtime counter
is never written (it stays 0), the start time is fixed, and the total
duration stays nonnegative as long as tick times are not before the
session start. -/
lemma monitorRun_inv (t0 : ℚ) :
    ∀ (ticks : List (Bool × Bool × ℚ)) (sess : StreamSession),
      sess.start_time = t0 → sess.downtime_duration_sec = 0 →
      0 ≤ sess.total_duration_sec →
      (∀ p ∈ ticks, t0 ≤ p.2.2) →
      (∀ x ∈ (monitorRun sess ticks).2,
        x.downtime_duration_sec = 0 ∧ 0 ≤ x.total_duration_sec) ∧
      (monitorRun sess ticks).1.start_time = t0 ∧
      (monitorRun sess ticks).1.downtime_duration_sec = 0 := by
  intro ticks
  induction ticks with
  | nil =>
    intro sess h1 h2 h3 _
    exact ⟨fun x hx => absurd hx (List.not_mem_nil x), h1, h2⟩
  | cons t rest ih =>
    intro sess h1 h2 h3 hticks
    have hstep : (monitorTick sess t.1 t.2.1 t.2.2).start_time = t0 ∧
        (monitorTick sess t.1 t.2.1 t.2.2).downtime_duration_sec = 0 ∧
        0 ≤ (monitorTick sess t.1 t.2.1 t.2.2).total_duration_sec := by
      unfold monitorTick
      split
      · exact ⟨h1, h2, h3⟩
      · refine ⟨h1, h2, ?_⟩
        show 0 ≤ pyInt (t.2.2 - sess.start_time)
        apply pyInt_nonneg
        rw [h1]
        have := hticks t (List.mem_cons_self t rest)
        linarith
    have hrest := ih (monitorTick sess t.1 t.2.1 t.2.2) hstep.1 hstep.2.1
      hstep.2.2 (fun p hp => hticks p (List.mem_cons_of_mem t hp))
    refine ⟨?_, hrest.2.1, hrest.2.2⟩
    intro x hx
    have hx' : x ∈ (monitorTick sess t.1 t.2.1 t.2.2) ::
      (monitorRun (monitorTick sess t.1 t.2.1 t.2.2) rest).2 := hx
    rcases List.mem_cons.mp hx' with hx | hx
    · subst hx
      exact ⟨hstep.2.1, hstep.2.2⟩
    · exact hrest.1 x hx

/-- C5: at every observed point of a broadcast session's lifecycle —
after construction, after each health-monitor tick, and after
finalization — the downtime duration is at most the total duration,
provided the wall clock never runs before the session's start time. -/
theorem c5_downtime_le_total :
    ∀ (sid : Nat) (t0 : ℚ) (ticks : List (Bool × Bool × ℚ)) (tEnd : ℚ),
      (∀ p ∈ ticks, t0 ≤ p.2.2) → t0 ≤ tEnd →
      ∀ sess ∈ observedSessions sid t0 ticks tEnd,
        sess.downtime_duration_sec ≤ sess.total_duration_sec := by
  intro sid t0 ticks tEnd hticks hend sess hmem
  have hinv := monitorRun_inv t0 ticks (newStreamSession sid t0) rfl rfl
    le_rfl hticks
  unfold observedSessions at hmem
  rcases List.mem_cons.mp hmem with hmem | hmem
  · subst hmem
    exact le_rfl
  · rcases List.mem_append.mp hmem with hmem | hmem
    · obtain ⟨hd, ht⟩ := hinv.1 sess hmem
      rw [hd]
      exact ht
    · rcases List.mem_singleton.mp hmem with rfl
      show (finalizeSession (monitorRun (newStreamSession sid t0) ticks).1
        tEnd).downtime_duration_sec ≤ _
      unfold finalizeSession
      show (monitorRun (newStreamSession sid t0) ticks).1.downtime_duration_sec ≤
        pyInt (tEnd - (monitorRun (newStreamSession sid t0) ticks).1.start_time)
      rw [hinv.2.2, hinv.2.1]
      apply pyInt_nonneg
      linarith

/-- C5 witness: the lifecycle of a concrete session with two monitor
ticks and a finalization keeps downtime below total duration; checked
here on the constructed state, with the theorem's hypotheses discharged
on concrete times. -/
theorem c5_downtime_le_total_witness :
    ((∀ p ∈ [(true, true, (10 : ℚ)), (false, false, (25 : ℚ))],
        (0 : ℚ) ≤ p.2.2) ∧ (0 : ℚ) ≤ 30) ∧
    newStreamSession 1 0 ∈
      observedSessions 1 0 [(true, true, 10), (false, false, 25)] 30 ∧
    (newStreamSession 1 0).downtime_duration_sec ≤
      (newStreamSession 1 0).total_duration_sec :=
  ⟨⟨by decide, by norm_num⟩,
   List.mem_cons_self _ _,
   c5_downtime_le_total 1 0 [(true, true, 10), (false, false, 25)] 30
     (by decide) (by norm_num) (newStreamSession 1 0)
     (List.mem_cons_self _ _)⟩

/-- Inserting an element whose priority key is at least every key in the
accumulator appends it at the end. -/
lemma pySortInsert_all_le (a : ContentSource) :
    ∀ (acc : List ContentSource),
      (∀ b ∈ acc, b.priority ≤ a.priority) →
      pySortInsert a acc = acc ++ [a] := by
  intro acc
  induction acc with
  | nil => intro _; rfl
  | cons b l ih =>
    intro h
    unfold pySortInsert
    rw [if_pos (h b (List.mem_cons_self b l))]
    rw [ih fun x hx => h x (List.mem_cons_of_mem b hx)]
    rfl

/-- Folding the stable insertion over a priority-sorted list, starting
from an accumulator all of whose keys are below the list's keys, just
appends the list. -/
lemma pySortFold_of_sorted :
    ∀ (l acc : List ContentSource),
      (∀ b ∈ acc, ∀ x ∈ l, b.priority ≤ x.priority) →
      List.Pairwise (fun x y : ContentSource => x.priority ≤ y.priority) l →
      l.foldl (fun acc a => pySortInsert a acc) acc = acc ++ l := by
  intro l
  induction l with
  | nil => intro acc _ _; simp
  | cons a l ih =>
    intro acc hall hpair
    show (l.foldl (fun acc a => pySortInsert a acc) (pySortInsert a acc)) = _
    rw [pySortInsert_all_le a acc
      (fun b hb => hall b hb a (List.mem_cons_self a l))]
    rw [ih (acc ++ [a]) ?_ (List.Pairwise.of_cons hpair)]
    · simp
    · intro b hb x hx
      rcases List.mem_append.mp hb with hb | hb
      · exact hall b hb x (List.mem_cons_of_mem a hx)
      · rcases List.mem_singleton.mp hb with rfl
        exact (List.pairwise_cons.mp hpair).1 x hx

/-- Python's stable sort by the priority key is the identity on a list
that is already sorted by priority. -/
lemma pySortByPriority_eq_self {l : List ContentSource}
    (h : List.Pairwise (fun x y : ContentSource => x.priority ≤ y.priority) l) :
    pySortByPriority l = l := by
  unfold pySortByPriority
  rw [pySortFold_of_sorted l [] (by intro b hb; cases hb) h]
  rfl

/-- C6: for every catalog and wall-clock time, the candidate list
produced by `_select_content_for_current_time` is ordered by ascending
priority (1 = highest) and, among items of equal priority, by title:
the repository's `ORDER BY priority ASC, title ASC` produces a
lexicographically sorted list, filtering preserves that order, and the
final stable `sort(key=priority)` leaves such a list unchanged. -/
theorem c6_candidates_sorted_by_priority_then_title :
    ∀ (table : List ContentSource) (hour weekday : Nat),
      List.Pairwise contentLe
        (selectContentForCurrentTime table hour weekday) := by
  intro table hour weekday
  have hla : List.Pairwise contentLe (listAll table) :=
    List.sorted_insertionSort contentLe table
  set tb := getCurrentTimeBlock hour weekday with htb
  set req := ageRatingForTimeBlock tb with hreq
  set m1 := (listAll table).filter
    (fun c => c.time_blocks.contains tb &&
      isAgeAppropriate c.age_rating req) with hm1
  set mg := (listAll table).filter
    (fun c => c.time_blocks.contains "general" &&
      isAgeAppropriate c.age_rating req) with hmg
  have heq : selectContentForCurrentTime table hour weekday =
      pySortByPriority (if m1.isEmpty then mg else m1) := rfl
  have hm2 : List.Pairwise contentLe (if m1.isEmpty then mg else m1) := by
    split
    · exact List.Pairwise.filter _ hla
    · exact List.Pairwise.filter _ hla
  have hp : List.Pairwise
      (fun x y : ContentSource => x.priority ≤ y.priority)
      (if m1.isEmpty then mg else m1) := by
    refine hm2.imp ?_
    intro a b hab
    rcases hab with h | ⟨h, -⟩
    · exact le_of_lt h
    · exact le_of_eq h
  rw [heq, pySortByPriority_eq_self hp]
  exact hm2

/-- A concrete catalog entry for evaluating the playback loop. -/
def playbackSource : ContentSource :=
  { sourceId := 1, title := "Lecture 1",
    windows_obs_path := "\\\\wsl.localhost\\Debian\\content\\video.mp4",
    duration_sec := 300, width := 1280, height := 720,
    source_attribution := SourceAttribution.cs50,
    age_rating := AgeRating.all, time_blocks := ["general"],
    priority := 1 }

/-- C7 evaluation at the failing input: a database-mode iteration with a
nonempty candidate list, not paused, and every control-surface call
succeeding does switch to "Automated Content", sleeps for the item's
real duration and advances the rotation index — but it then signals the
content-failure path (the completion log reads the unbound
`content_file` variable, raising `UnboundLocalError` into the generic
handler) and never sleeps the 0.5 s transition gap. -/
theorem c7_db_iteration_signals_content_failure :
    (playbackIterationDb [playbackSource] 0 false true).1 = 1 ∧
    PlaybackStep.switchScene "Automated Content" ∈
      (playbackIterationDb [playbackSource] 0 false true).2 ∧
    PlaybackStep.sleepSec (playbackSource.duration_sec : ℚ) ∈
      (playbackIterationDb [playbackSource] 0 false true).2 ∧
    PlaybackStep.signalContentFailure ∈
      (playbackIterationDb [playbackSource] 0 false true).2 ∧
    PlaybackStep.sleepSec (1/2) ∉
      (playbackIterationDb [playbackSource] 0 false true).2 := by
  have h2 : (playbackIterationDb [playbackSource] 0 false true).2 =
      [PlaybackStep.updateMediaSource playbackSource.windows_obs_path,
       PlaybackStep.scaleSource,
       PlaybackStep.updateCredits (playbackSource.title ++ "\nSource: " ++
         playbackSource.source_attribution.value),
       PlaybackStep.switchScene "Automated Content",
       PlaybackStep.sleepSec (playbackSource.duration_sec : ℚ),
       PlaybackStep.signalContentFailure] := rfl
  refine ⟨rfl, ?_, ?_, ?_, ?_⟩
  · rw [h2]; simp
  · rw [h2]; simp
  · rw [h2]; simp
  · rw [h2]
    intro hmem
    simp only [List.mem_cons, List.not_mem_nil, or_false] at hmem
    rcases hmem with h | h | h | h | h | h <;> first
      | exact PlaybackStep.noConfusion h
      | (injection h with h'
         rw [show playbackSource.duration_sec = 300 from rfl] at h'
         norm_num at h')

/-- Recording a downtime event does not touch the restart counter. -/
lemma recordDowntimeEvent_attempts (s : FailoverState)
    (cause : FailureCause) (act : String) (now : ℚ) (eid : Nat) :
    (recordDowntimeEvent s cause act now eid).obs_restart_attempts =
      s.obs_restart_attempts := by
  unfold recordDowntimeEvent
  split <;> rfl

/-- Finalizing a downtime event does not touch the restart counter. -/
lemma finalizeCurrentDowntime_attempts (s : FailoverState) (now : ℚ)
    (act : String) :
    (finalizeCurrentDowntime s now act).obs_restart_attempts =
      s.obs_restart_attempts := by
  unfold finalizeCurrentDowntime
  split <;> rfl

/-- Activating Technical Difficulties does not touch the restart
counter. -/
lemma activateTechDiff_attempts (s : FailoverState) (reason : String)
    (b : Bool) :
    (activateTechnicalDifficulties s reason b).1.obs_restart_attempts =
      s.obs_restart_attempts := by
  unfold activateTechnicalDifficulties
  split
  · split <;> rfl
  · rfl

/-- Activating Technical Difficulties issues exactly the Technical
Difficulties scene switch. -/
lemma activateTechDiff_acts (s : FailoverState) (reason : String)
    (b : Bool) :
    (activateTechnicalDifficulties s reason b).2 =
      [ObsAction.switchScene "Technical Difficulties"] := by
  unfold activateTechnicalDifficulties
  split
  · split <;> rfl
  · rfl

/-- Behaviour of a single `_handle_obs_crash` tick in terms of the
restart counter: the tick attempts a reconnect exactly when the counter
is below 3; a successful attempt resets the counter to 0 and a failed
one increments it; the Technical Difficulties switch is requested
exactly when a failed attempt brings the counter from 2 to 3, or the
counter was already exhausted. -/
lemma handleObsCrash_spec (s : FailoverState) (env : CrashTickEnv) :
    countConnect (handleObsCrash s env).2 =
      (if s.obs_restart_attempts < 3 then 1 else 0) ∧
    (handleObsCrash s env).1.obs_restart_attempts =
      (if s.obs_restart_attempts < 3 then
        (if env.connectOk then 0 else s.obs_restart_attempts + 1)
       else s.obs_restart_attempts) ∧
    (tdRequested (handleObsCrash s env).2 ↔
      ((env.connectOk = false ∧ s.obs_restart_attempts = 2) ∨
        3 ≤ s.obs_restart_attempts)) := by
  by_cases h3 : s.obs_restart_attempts < 3 <;>
    by_cases hc : env.connectOk <;>
      by_cases hst : env.statusOk <;>
        by_cases hsa : env.streamActive <;>
          by_cases hso : env.startOk <;>
            by_cases h32 : 3 ≤ s.obs_restart_attempts + 1 <;>
              simp [handleObsCrash, recordDowntimeEvent_attempts,
                finalizeCurrentDowntime_attempts, activateTechDiff_attempts,
                activateTechDiff_acts, countConnect, tdRequested,
                List.countP_cons, h3, hc, hst, hsa, hso, h32] <;>
              omega

/-- The `countSuccess` over a cons cell. -/
lemma countSuccess_cons (e : CrashTickEnv) (l : List CrashTickEnv) :
    countSuccess (e :: l) =
      countSuccess l + (if e.connectOk then 1 else 0) := by
  simp [countSuccess, List.countP_cons]

/-- The `countConnect` distributes over append. -/
lemma countConnect_append (a b : List ObsAction) :
    countConnect (a ++ b) = countConnect a + countConnect b := by
  simp [countConnect, List.countP_append]

/-- A Technical Difficulties request in a concatenation comes from one
of the parts. -/
lemma tdRequested_append (a b : List ObsAction) :
    tdRequested (a ++ b) ↔ tdRequested a ∨ tdRequested b := by
  simp [tdRequested]

/-- Global reconnect budget over any tick sequence: each successful
reconnect refreshes the budget of 3, so the total number of attempts is
bounded by the initial budget plus 3 per success. -/
lemma runObsCrashTicks_bound :
    ∀ (envs : List CrashTickEnv) (s : FailoverState),
      countConnect (runObsCrashTicks s envs).2 ≤
        (3 - s.obs_restart_attempts) + 3 * countSuccess envs := by
  intro envs
  induction envs with
  | nil =>
    intro s
    simp [runObsCrashTicks, countConnect]
  | cons e rest ih =>
    intro s
    obtain ⟨hcount, hatt, -⟩ := handleObsCrash_spec s e
    show countConnect ((handleObsCrash s e).2 ++
      (runObsCrashTicks (handleObsCrash s e).1 rest).2) ≤ _
    rw [countConnect_append, hcount, countSuccess_cons]
    have hrec := ih (handleObsCrash s e).1
    rw [hatt] at hrec
    by_cases h3 : s.obs_restart_attempts < 3 <;>
      by_cases hc : e.connectOk <;>
        simp [h3, hc] at hrec ⊢ <;> omega

/-- Over a sequence of ticks whose reconnects all fail, the number of
attempts is the remaining budget (capped by the sequence length), and
the Technical Difficulties switch is requested exactly when the
sequence is long enough to exhaust that budget. -/
lemma runObsCrashTicks_allFail :
    ∀ (envs : List CrashTickEnv) (s : FailoverState),
      (∀ e ∈ envs, e.connectOk = false) →
      countConnect (runObsCrashTicks s envs).2 =
        min envs.length (3 - s.obs_restart_attempts) ∧
      (tdRequested (runObsCrashTicks s envs).2 ↔
        max (3 - s.obs_restart_attempts) 1 ≤ envs.length) := by
  intro envs
  induction envs with
  | nil =>
    intro s _
    constructor
    · simp [runObsCrashTicks, countConnect]
    · simp only [runObsCrashTicks, tdRequested]
      simp
  | cons e rest ih =>
    intro s hall
    have hc : e.connectOk = false := hall e (List.mem_cons_self e rest)
    obtain ⟨hcount, hatt, htd⟩ := handleObsCrash_spec s e
    have hrest := ih (handleObsCrash s e).1
      (fun x hx => hall x (List.mem_cons_of_mem e hx))
    constructor
    · show countConnect ((handleObsCrash s e).2 ++
        (runObsCrashTicks (handleObsCrash s e).1 rest).2) = _
      rw [countConnect_append, hcount, hrest.1, hatt]
      by_cases h3 : s.obs_restart_attempts < 3 <;>
        simp [h3, hc] <;> omega
    · show tdRequested ((handleObsCrash s e).2 ++
        (runObsCrashTicks (handleObsCrash s e).1 rest).2) ↔ _
      rw [tdRequested_append, htd, hrest.2, hatt]
      by_cases h3 : s.obs_restart_attempts < 3 <;>
        simp [h3, hc] <;> omega

/-- C1: starting from a fresh escalator (counter 0), the number of
reconnect attempts over any sequence of OBS-failure ticks is at most
3 plus 3 for each tick whose reconnect succeeds (each success resets
the budget); over a sequence whose reconnects all fail, exactly
`min length 3` attempts are made and the Technical Difficulties scene
is requested iff the sequence reaches 3 ticks; and any successful
reconnect while the budget is not exhausted resets the counter to 0. -/
theorem c1_reconnect_attempt_budget :
    (∀ (s : FailoverState) (envs : List CrashTickEnv),
       s.obs_restart_attempts = 0 →
       countConnect (runObsCrashTicks s envs).2 ≤
         3 + 3 * countSuccess envs) ∧
    (∀ (s : FailoverState) (envs : List CrashTickEnv),
       s.obs_restart_attempts = 0 →
       (∀ e ∈ envs, e.connectOk = false) →
       countConnect (runObsCrashTicks s envs).2 = min envs.length 3 ∧
       (tdRequested (runObsCrashTicks s envs).2 ↔ 3 ≤ envs.length)) ∧
    (∀ (s : FailoverState) (env : CrashTickEnv),
       s.obs_restart_attempts < 3 → env.connectOk = true →
       (handleObsCrash s env).1.obs_restart_attempts = 0) := by
  refine ⟨?_, ?_, ?_⟩
  · intro s envs h0
    have := runObsCrashTicks_bound envs s
    rw [h0] at this
    simpa using this
  · intro s envs h0 hall
    have := runObsCrashTicks_allFail envs s hall
    rw [h0] at this
    simpa using this
  · intro s env h3 hc
    obtain ⟨-, hatt, -⟩ := handleObsCrash_spec s env
    rw [hatt]
    simp [h3, hc]

/-- A watchdog tick whose reconnect fails. -/
def failTick : CrashTickEnv :=
  { connectOk := false, statusOk := true, streamActive := true,
    startOk := true, tdOk := true, now := 0, eid := 1 }

/-- A watchdog tick whose reconnect succeeds. -/
def okTick : CrashTickEnv :=
  { connectOk := true, statusOk := true, streamActive := true,
    startOk := true, tdOk := true, now := 0, eid := 2 }

/-- C1 witness: concrete tick sequences on the fresh monitored state —
the budget bound on a mixed sequence, exact count 3 with a Technical
Difficulties request on four straight failures, and the counter reset
on a successful reconnect. -/
theorem c1_reconnect_attempt_budget_witness :
    (monitoredState.obs_restart_attempts = 0 ∧
      countConnect (runObsCrashTicks monitoredState
          [failTick, okTick, failTick]).2 ≤
        3 + 3 * countSuccess [failTick, okTick, failTick]) ∧
    ((∀ e ∈ [failTick, failTick, failTick, failTick], e.connectOk = false) ∧
      countConnect (runObsCrashTicks monitoredState
          [failTick, failTick, failTick, failTick]).2 = min 4 3 ∧
      (tdRequested (runObsCrashTicks monitoredState
          [failTick, failTick, failTick, failTick]).2 ↔ 3 ≤ 4)) ∧
    (monitoredState.obs_restart_attempts < 3 ∧ okTick.connectOk = true ∧
      (handleObsCrash monitoredState okTick).1.obs_restart_attempts = 0) :=
  ⟨⟨rfl, c1_reconnect_attempt_budget.1 monitoredState
      [failTick, okTick, failTick] rfl⟩,
   ⟨by decide, c1_reconnect_attempt_budget.2.1 monitoredState
      [failTick, failTick, failTick, failTick] rfl (by decide)⟩,
   ⟨by decide, rfl, c1_reconnect_attempt_budget.2.2 monitoredState okTick
      (by decide) rfl⟩⟩

end OBSBot
